import Mathlib

/-!
Verification of the moderation core of the telegram-scam-defender bot
(src/telegram-ban-bot.py), via a shallow embedding of its pure logic:
the verdict parser, the image pre-filter rule passes, the moderation
message generator, the three-strike escalation flow, and the dispatch
router.  External capability calls (HTTP inference, Telegram transport)
are modelled by explicit outcome parameters: each call either succeeds
with a value or raises, exactly mirroring the try/except structure of
the source.
-/

set_option maxRecDepth 100000

namespace ScamDefender

/-! ### Python string primitives

Models of the Python `str` operations used by the bot.  Character-class
operations (`lower`, `isspace`, `strip`, regex word characters) are
modelled over the ASCII range, which covers every character the bot's
built-in keyword lists, prompts and templates use; Unicode-specific
behaviour of the Python originals is out of scope. -/

/-- ASCII whitespace recognised by Python `str.strip` / `str.isspace`. -/
def pyIsSpace (c : Char) : Bool :=
  c = ' ' || c = '\t' || c = '\n' || c = '\r' || c = '\x0b' || c = '\x0c'

/-- Model of the Python test `not s or s.isspace()`: true iff every
character is whitespace (vacuously true for the empty string). -/
def pyIsEmptyOrSpace (s : String) : Bool :=
  s.data.all pyIsSpace

/-- Python `str.strip()`: drop whitespace from both ends. -/
def pyStrip (s : String) : String :=
  ⟨((s.data.dropWhile pyIsSpace).reverse.dropWhile pyIsSpace).reverse⟩

/-- Python `str.lower()` on the ASCII range. -/
def pyLowerChar (c : Char) : Char :=
  if 'A' ≤ c ∧ c ≤ 'Z' then Char.ofNat (c.toNat + 32) else c

/-- Python `str.lower()`. -/
def pyLower (s : String) : String :=
  ⟨s.data.map pyLowerChar⟩

/-- Python `pat in s` (substring containment). -/
def pyContains (s pat : String) : Bool :=
  decide (pat.data <:+: s.data)

/-- Python `s.startswith(pat)`. -/
def pyStartsWith (s pat : String) : Bool :=
  decide (pat.data <+: s.data)

/-- The characters after the first colon of `s`, if `s` has a colon:
models `s.split(":", 1)` yielding a second part. -/
def afterFirstColon : List Char → Option (List Char)
  | [] => none
  | c :: cs => if c = ':' then some cs else afterFirstColon cs

/-- Fuelled worker for `pyReplace`; the fuel is the input length, which
bounds the number of steps since the pattern is nonempty at call sites. -/
def pyReplaceAux (pat rep : List Char) : Nat → List Char → List Char
  | _, [] => []
  | 0, s => s
  | fuel + 1, c :: cs =>
    if pat.isPrefixOf (c :: cs) then
      rep ++ pyReplaceAux pat rep fuel ((c :: cs).drop pat.length)
    else
      c :: pyReplaceAux pat rep fuel cs

/-- Python `s.replace(pat, rep)` (all occurrences, left to right).
The bot only calls this with a nonempty pattern; the empty-pattern
case (where Python interleaves `rep` between characters) is mapped to
the identity and never exercised. -/
def pyReplace (s pat rep : String) : String :=
  match pat.data with
  | [] => s
  | _ :: _ => ⟨pyReplaceAux pat.data rep.data s.data.length s.data⟩

/-! ### Inference capability outcomes

`requests.post` either raises (`reqError`) or returns a response with a
status code and a body; `response.json().get("response", "")` either
raises on a malformed body (`none`) or yields the response text
(`some t`).  The text is the value after the source's `html.unescape`
step; every string free of HTML entities is its own unescaping, so the
quantifications below range over exactly the reachable texts. -/

inductive InferResult where
  | reqError
  | ok (status : Nat) (body : Option String)
deriving DecidableEq

/-! ### Classifier Adapter (check_content, lines 72-126) -/

/-- The verdict parser of `check_content` (lines 108-122), applied to
the stripped response text.  Returns `(is_safe, reason)`. -/
def parse_moderation_result (result : String) : Bool × String :=
  if pyContains (pyLower result) "unsafe" || pyContains result "!!!unsafe!!!" then
    (false, "Potentially inappropriate or scammy content")
  else if pyStartsWith result "SAFE" then
    (true, "")
  else if pyStartsWith result "UNSAFE" then
    match afterFirstColon result.data with
    | some rest => (false, pyStrip ⟨rest⟩)
    | none => (false, "inappropriate content")
  else if (pyStrip result).data.length = 0 || pyLower (pyStrip result) = "none" then
    (true, "")
  else
    (false, "Unrecognized response format - treating as potentially unsafe")

/-- `check_content` (lines 72-126): empty/whitespace subject, request
exception, non-200 status and an unparseable body all fail open to
`(true, "")`; otherwise the stripped response text is parsed. -/
def check_content (text : String) (api : InferResult) : Bool × String :=
  if pyIsEmptyOrSpace text then (true, "")
  else
    match api with
    | .reqError => (true, "")
    | .ok status body =>
      if status ≠ 200 then (true, "")
      else
        match body with
        | none => (true, "")
        | some resp => parse_moderation_result (pyStrip resp)

/-! ### Message Generator (generate_moderation_message, lines 184-263) -/

/-- Fixed emoji header for deletion notices. -/
def deletionHeader : String := "🚨 MESSAGE DELETED 🚨\n\n"

/-- Fixed emoji header for ban notices. -/
def banHeader : String := "🚫 USER REMOVED 🚫\n\n"

/-- The catch-all fallback returned from the `except` clause (line 263). -/
def genericFallback (username : String) : String :=
  deletionHeader ++ "Message from @" ++ username ++ " was removed for violating community rules."

/-- Post-processing of a successful inference response (lines 246-259):
header normalisation, then the `@`-mention rewrite, which is skipped for
the `delete_username` action. -/
def moderation_postprocess (action_type username : String) (t : String) : String :=
  let t1 :=
    if action_type = "ban" && !pyStartsWith t "🚫" then banHeader ++ t
    else if !pyStartsWith t "🚨" && !pyStartsWith t "🚫" then deletionHeader ++ t
    else t
  if action_type ≠ "delete_username" && !pyContains t1 ("@" ++ username) && pyContains t1 username then
    pyReplace t1 username ("@" ++ username)
  else t1

/-- `generate_moderation_message` (lines 184-263).  A raised request is
the `except` path; a non-200 status selects the per-action fallback
template (falling through to the body for an unrecognised action, as the
source's `if`/`elif` chain has no final `else`); a 200 response is
post-processed.  A body of `none` models `response.json()` raising. -/
def generate_moderation_message (action_type username reason : String)
    (offense_count : Nat) (api : InferResult) : String :=
  match api with
  | .reqError => genericFallback username
  | .ok status body =>
    if status ≠ 200 then
      if action_type = "delete_content" then
        deletionHeader ++ "Hey @" ++ username ++ ", your message was removed. Reason: "
          ++ reason ++ ". Strike " ++ toString offense_count ++ "/3."
      else if action_type = "delete_username" then
        deletionHeader ++ "A message was removed due to inappropriate username. Reason: " ++ reason
      else if action_type = "ban" then
        banHeader ++ "User @" ++ username ++ " has been banned after multiple violations. Final violation: " ++ reason
      else
        match body with
        | none => genericFallback username
        | some t => moderation_postprocess action_type username t
    else
      match body with
      | none => genericFallback username
      | some t => moderation_postprocess action_type username t

/-! ### Image Pre-filter (process_image, lines 306-440)

The model starts from the image description string (the source obtains
it from the vision model, strips and HTML-unescapes it; transport
failure and a non-200 status fail open before this point).  The
Classifier Adapter verdict on the description is passed in as a
parameter together with a flag recording whether it was consulted. -/

/-- Default scam keyword list (lines 380-397), used when the
`SCAM_KEYWORDS` environment variable is unset. -/
def defaultScamKeywords : List String :=
  ["gift card", "congratulations", "won", "winner", "prize", "reward",
   "claim your", "free money", "lottery", "jackpot", "lucky draw",
   "promotion code", "special offer", "$1000", "$500", "limited time",
   "investment opportunity", "bitcoin", "crypto", "easy money", "double your",
   "click here", "call now", "act immediately", "urgent", "warning", "alert",
   "virus detected", "malware", "infected", "security breach", "hacked",
   "trojan", "ransomware", "malicious", "your device", "your computer",
   "your account has been", "unauthorized access", "technical support",
   "clean your", "scan your", "fix your"]

/-- Default list of always-flagged subjects (lines 369-373), used when
the `UNSAFE_SUBJECTS` environment variable is unset. -/
def defaultFlaggedSubjects : List String :=
  ["nudity", "pornography", "explicit", "sexual", "naked", "nsfw",
   "violence", "gore", "blood", "weapon", "terrorist", "suicide",
   "self-harm", "drugs", "drug use", "illegal substances"]

/-- Regex word character (ASCII model of `\w`). -/
def isWordChar (c : Char) : Bool :=
  c.isAlpha || c.isDigit || c = '_'

/-- Whether a regex word boundary holds between an adjacent character
(`none` at a string edge) and the character at the pattern edge. -/
def wordBoundaryAt (adj : Option Char) (edge : Char) : Bool :=
  (match adj with | none => false | some a => isWordChar a) != isWordChar edge

/-- Whether the literal pattern matches at the head of `s` with word
boundaries on both sides, `prev` being the character just before `s`. -/
def wbMatchAt (pat : List Char) (prev : Option Char) (s : List Char) : Bool :=
  match pat with
  | [] => true
  | p0 :: ps =>
    pat.isPrefixOf s
      && wordBoundaryAt prev p0
      && wordBoundaryAt ((s.drop pat.length).head?) (ps.getLastD p0)

/-- Scan of `re.search` for a word-boundary-delimited literal. -/
def wordBoundarySearchAux (pat : List Char) : Option Char → List Char → Bool
  | prev, s =>
    wbMatchAt pat prev s ||
      match s with
      | [] => false
      | c :: cs => wordBoundarySearchAux pat (some c) cs

/-- Model of `re.search(r"\b" + re.escape(pat) + r"\b", s)` viewed as a
Boolean: some occurrence of the literal `pat` in `s` delimited by word
boundaries. -/
def wordBoundarySearch (pat s : String) : Bool :=
  wordBoundarySearchAux pat.data none s.data

/-- Whether `s` contains any of the given substrings. -/
def containsAny (s : String) (pats : List String) : Bool :=
  pats.any (fun p => pyContains s p)

/-- The virus/alert half of the tech-support-scam heuristic (line 404):
`re.search` of an unanchored alternation is substring containment. -/
def virus_alert_pattern (desc : String) : Bool :=
  containsAny (pyLower desc) ["virus", "malware", "infected", "detected", "alert", "warning", "security"]

/-- The call/support half of the tech-support-scam heuristic (line 405). -/
def tech_support_pattern (desc : String) : Bool :=
  containsAny (pyLower desc) ["call", "support", "clean", "fix", "remove"]

/-- Result of the image pre-filter: the verdict, and whether the
Classifier Adapter (`check_content` on the description) was consulted. -/
structure ImageModResult where
  verdict : Bool × String
  adapterInvoked : Bool
deriving DecidableEq

/-- The deterministic rule passes of `process_image` over the image
description (lines 361-434), with the default keyword/subject lists:
empty description fails open; then the tech-support compound check, the
scam keyword scan, and the word-boundary subject scan each short-circuit
as unsafe; otherwise the Classifier Adapter verdict `adapter` decides,
its reason prefixed. -/
def process_image_description (desc : String) (adapter : Bool × String) : ImageModResult :=
  if desc = "" then ⟨(true, ""), false⟩
  else if virus_alert_pattern desc && tech_support_pattern desc then
    ⟨(false, "Image appears to be a tech support scam"), false⟩
  else
    match defaultScamKeywords.find? (fun k => pyContains (pyLower desc) k) with
    | some k => ⟨(false, "Image appears to be a scam offering \x27" ++ k ++ "\x27"), false⟩
    | none =>
      match defaultFlaggedSubjects.find? (fun u => wordBoundarySearch u (pyLower desc)) with
      | some u => ⟨(false, "Image contains inappropriate content: \x27" ++ u ++ "\x27"), false⟩
      | none =>
        if adapter.1 then ⟨(true, ""), true⟩
        else ⟨(false, "Image may contain " ++ adapter.2), true⟩

/-! ### Escalation Engine (moderate_message, lines 512-680)

Transport outcomes are explicit: a `false` field means that capability
call raises when reached, mirroring the try/except structure.  The
result records the offense count after the event and which externally
visible actions happened. -/

/-- Inputs of one `moderate_message` run: the content and username
verdicts (as returned by `check_content` / `check_username`) and the
outcome of each transport call in program order.  `deleteOk` is the
`update.message.delete()` call on the content path (line 532); the
`2`-suffixed fields are the calls on the username path (lines 637-659). -/
structure ModEnv where
  contentVerdict : Bool × String
  usernameVerdict : Bool × String
  deleteOk : Bool
  banOk : Bool
  sendOk : Bool
  pinOk : Bool
  isGroup : Bool
  deleteOk2 : Bool
  sendOk2 : Bool
  pinOk2 : Bool
deriving DecidableEq

/-- Externally visible outcome of one `moderate_message` run.
`messageDeleted` means some delete call succeeded; `banInvoked` means
`ban_chat_member` was called, `banSucceeded` that it returned; the three
`Sent` fields mean the corresponding `send_message` call returned. -/
structure ModResult where
  count : Nat
  messageDeleted : Bool
  banInvoked : Bool
  banSucceeded : Bool
  warnNoticeSent : Bool
  banNoticeSent : Bool
  usernameNoticeSent : Bool
deriving DecidableEq

/-- The username check tail of `moderate_message` (lines 632-680),
reached when content was judged safe or when an exception was caught on
the content path.  `count` and `deleted` carry the state accumulated so
far; the pin call failing is caught locally and changes nothing that is
modelled. -/
def username_check (count : Nat) (deleted : Bool) (env : ModEnv) : ModResult :=
  if !env.usernameVerdict.1 then
    if !env.deleteOk2 then
      ⟨count, deleted, false, false, false, false, false⟩
    else if !env.sendOk2 then
      ⟨count, true, false, false, false, false, false⟩
    else
      ⟨count, true, false, false, false, false, true⟩
  else
    ⟨count, deleted, false, false, false, false, false⟩

/-- `moderate_message` (lines 512-680) for a group text message with
content verdict `env.contentVerdict`, starting from offense count `c`.
On an unsafe verdict the count is incremented first (line 528); a
failing delete raises to the outer `except` (line 629) and control falls
through to the username check; on the third strike the ban branch resets
the count to 0 only after both `ban_chat_member` and the notice
`send_message` return (reset at line 583 is skipped by the inner
`except` at line 584); on a failing warn-notice send the outer `except`
also falls through to the username check. -/
def moderate_message (c : Nat) (env : ModEnv) : ModResult :=
  if !env.contentVerdict.1 then
    let c1 := c + 1
    if !env.deleteOk then
      username_check c1 false env
    else if 3 ≤ c1 then
      if !env.banOk then
        ⟨c1, true, true, false, false, false, false⟩
      else if !env.sendOk then
        ⟨c1, true, true, true, false, false, false⟩
      else
        ⟨0, true, true, true, false, true, false⟩
    else
      if !env.sendOk then
        username_check c1 true env
      else
        ⟨c1, true, false, false, true, false, false⟩
  else
    username_check c false env

/-- Inputs of one group `handle_photo_message` moderation run
(lines 725-825): the image verdict from `process_image` and the
transport call outcomes in program order. -/
structure PhotoEnv where
  verdict : Bool × String
  deleteOk : Bool
  banOk : Bool
  sendOk : Bool
  pinOk : Bool
  isGroup : Bool
deriving DecidableEq

/-- Externally visible outcome of one group photo moderation run. -/
structure PhotoResult where
  count : Nat
  photoDeleted : Bool
  banInvoked : Bool
  banSucceeded : Bool
  warnNoticeSent : Bool
  banNoticeSent : Bool
deriving DecidableEq

/-- The group moderation part of `handle_photo_message` (lines 731-825):
same increment-then-delete-then-escalate shape as the text path, but the
outer `except` (line 824) ends the handler, with no username check. -/
def handle_photo_moderation (c : Nat) (env : PhotoEnv) : PhotoResult :=
  if !env.verdict.1 then
    let c1 := c + 1
    if !env.deleteOk then
      ⟨c1, false, false, false, false, false⟩
    else if 3 ≤ c1 then
      if !env.banOk then
        ⟨c1, true, true, false, false, false⟩
      else if !env.sendOk then
        ⟨c1, true, true, true, false, false⟩
      else
        ⟨0, true, true, true, false, true⟩
    else
      if !env.sendOk then
        ⟨c1, true, false, false, false, false⟩
      else
        ⟨c1, true, false, false, true, false⟩
  else
    ⟨c, false, false, false, false, false⟩

/-! ### Dispatch Router (handle_message, lines 442-484) -/

/-- Where `handle_message` routes a text message. -/
inductive Route where
  | privateChat
  | mention (cleanText : String)
  | moderation
deriving DecidableEq

/-- The routing logic of `handle_message` for a text message
(lines 466-484): private chats go to the conversational handler; in a
group, a case-insensitive occurrence of `"@" ++ botUsername` routes to
the mention handler with the mention removed (case-sensitively) and the
result stripped, unless that clean text is empty, in which case (as for
any non-mention) the message goes to moderation. -/
def route_text_message (chatType text botUsername : String) : Route :=
  if chatType = "private" then .privateChat
  else
    let bot_mention := "@" ++ botUsername
    if pyContains (pyLower text) (pyLower bot_mention) then
      let clean := pyStrip (pyReplace text bot_mention "")
      if clean ≠ "" then .mention clean else .moderation
    else .moderation

/-! ### Bridge lemmas -/

theorem pyContains_iff (s pat : String) : pyContains s pat = true ↔ pat.data <:+: s.data := by
  simp [pyContains]

theorem pyStartsWith_iff (s pat : String) : pyStartsWith s pat = true ↔ pat.data <+: s.data := by
  simp [pyStartsWith]

theorem username_check_count (n : Nat) (d : Bool) (env : ModEnv) :
    (username_check n d env).count = n := by
  unfold username_check
  repeat' split
  all_goals rfl

theorem username_check_flags (n : Nat) (d : Bool) (env : ModEnv) :
    (username_check n d env).banInvoked = false ∧
    (username_check n d env).banSucceeded = false ∧
    (username_check n d env).warnNoticeSent = false ∧
    (username_check n d env).banNoticeSent = false := by
  unfold username_check
  repeat' split
  all_goals exact ⟨rfl, rfl, rfl, rfl⟩

theorem flagged_count_small (c : Nat) (env : ModEnv)
    (hu : env.contentVerdict.1 = false) (hc : c + 1 < 3) :
    (moderate_message c env).count = c + 1 := by
  have h3 : ¬ (3 ≤ c + 1) := by omega
  obtain ⟨⟨cs, cr⟩, uv, dOk, bOk, sOk, pOk, grp, d2, s2, p2⟩ := env
  dsimp only at hu
  subst hu
  cases dOk <;> cases sOk <;>
    simp [moderate_message, username_check_count, h3]

/-! ### Claims -/

/-- Claim C5: the content classifier fails open — it returns
`(true, "")` whenever the subject is empty, the request raises, or the
service answers with a non-200 status. -/
theorem C5_check_content_fails_open (text : String) (api : InferResult)
    (h : text = "" ∨ api = .reqError ∨ ∃ s b, api = .ok s b ∧ s ≠ 200) :
    check_content text api = (true, "") := by
  rcases h with rfl | rfl | ⟨s, b, rfl, hs⟩
  · unfold check_content
    rw [if_pos (by decide)]
  · unfold check_content
    split
    · rfl
    · rfl
  · unfold check_content
    split
    · rfl
    · simp [hs]

/-- Witness for C5 at a concrete input: a raised request on a nonempty
subject yields the safe verdict. -/
theorem C5_witness : check_content "free gift card" InferResult.reqError = (true, "") :=
  C5_check_content_fails_open "free gift card" InferResult.reqError (Or.inr (Or.inl rfl))

/-- Claim C2, counterexample: the response "UNSAFE: spam" yields the
fixed generic reason, not the trimmed colon suffix "spam", because the
case-insensitive "unsafe" scan fires before the colon-extraction
branch. -/
theorem C2_counterexample :
    parse_moderation_result "UNSAFE: spam"
        = (false, "Potentially inappropriate or scammy content") ∧
      parse_moderation_result "UNSAFE: spam" ≠ (false, "spam") := by
  decide

/-- Claim C2 as amended: every response beginning with "UNSAFE:" parses
as unsafe with the fixed generic reason (the colon-suffix branch is
unreachable), and a response beginning with "SAFE" parses as safe
provided it does not contain "unsafe" case-insensitively. -/
theorem C2_parse_amended (r : String) :
    (pyStartsWith r "UNSAFE:" = true →
      parse_moderation_result r = (false, "Potentially inappropriate or scammy content")) ∧
    (pyStartsWith r "SAFE" = true → pyContains (pyLower r) "unsafe" = false →
      parse_moderation_result r = (true, "")) := by
  constructor
  · intro h
    obtain ⟨tl, htl⟩ := (pyStartsWith_iff r "UNSAFE:").1 h
    have hc : pyContains (pyLower r) "unsafe" = true := by
      rw [pyContains_iff]
      show "unsafe".data <:+: r.data.map pyLowerChar
      rw [← htl, List.map_append]
      have hmap : "UNSAFE:".data.map pyLowerChar = "unsafe:".data := by decide
      rw [hmap]
      refine ⟨[], ':' :: tl.map pyLowerChar, ?_⟩
      have hsplit : ("unsafe:".data : List Char) = "unsafe".data ++ [':'] := by decide
      rw [hsplit, List.append_assoc]
      rfl
    unfold parse_moderation_result
    rw [hc]
    rfl
  · intro h1 h2
    have hb : pyContains r "!!!unsafe!!!" = false := by
      cases hbb : pyContains r "!!!unsafe!!!" with
      | false => rfl
      | true =>
        exfalso
        have h3 := (pyContains_iff r "!!!unsafe!!!").1 hbb
        have h4 := List.IsInfix.map pyLowerChar h3
        have h5 : ("unsafe".data : List Char) <:+: "!!!unsafe!!!".data.map pyLowerChar := by
          decide
        have h6 := h5.trans h4
        have h7 : pyContains (pyLower r) "unsafe" = true :=
          (pyContains_iff (pyLower r) "unsafe").2 h6
        rw [h7] at h2
        exact Bool.noConfusion h2
    unfold parse_moderation_result
    rw [h2, hb, h1]
    rfl

/-- Witness for C2 as amended, at the concrete responses "UNSAFE: spam"
and "SAFE". -/
theorem C2_witness :
    parse_moderation_result "UNSAFE: spam"
        = (false, "Potentially inappropriate or scammy content") ∧
      parse_moderation_result "SAFE" = (true, "") :=
  ⟨(C2_parse_amended "UNSAFE: spam").1 (by decide),
   (C2_parse_amended "SAFE").2 (by decide) (by decide)⟩

/-- Claim C7, counterexample: the clean text handed to the
conversational path for "hello @BotName how are you" is not
"hello how are you" — removing the mention leaves both surrounding
spaces and `strip` trims only the ends. -/
theorem C7_counterexample :
    route_text_message "group" "hello @BotName how are you" "BotName"
      ≠ Route.mention "hello how are you" := by
  decide

/-- Claim C7 as amended: the group text "hello @BotName how are you"
with bot name "BotName" routes to the conversational path, with clean
text "hello  how are you" (a double space remains where the mention
stood). -/
theorem C7_route_amended :
    route_text_message "group" "hello @BotName how are you" "BotName"
      = Route.mention "hello  how are you" := by
  decide

/-- Claim C1, counterexample: three unsafe events from a fresh user,
with every transport call succeeding except the ban-notice send on the
third event.  The ban call itself succeeds, yet the offense count stays
at 3 instead of resetting to 0, because the reset sits after the notice
send inside the same try block. -/
theorem C1_counterexample :
    (moderate_message
        (moderate_message
            (moderate_message 0
              ⟨(false, "scam"), (true, ""), true, true, true, true, true, true, true, true⟩).count
          ⟨(false, "scam"), (true, ""), true, true, true, true, true, true, true, true⟩).count
      ⟨(false, "scam"), (true, ""), true, true, false, true, true, true, true, true⟩).banSucceeded
        = true ∧
    (moderate_message
        (moderate_message
            (moderate_message 0
              ⟨(false, "scam"), (true, ""), true, true, true, true, true, true, true, true⟩).count
          ⟨(false, "scam"), (true, ""), true, true, true, true, true, true, true, true⟩).count
      ⟨(false, "scam"), (true, ""), true, true, false, true, true, true, true, true⟩).count ≠ 0 := by
  decide

/-- Claim C1 as amended: after exactly three confirmed-unsafe content
events with no intervening safe events, starting from offense count 0,
the third event invokes the ban capability provided its delete call
succeeds, and the count resets to 0 provided the ban call and the
subsequent ban-notice send both succeed. -/
theorem C1_three_strikes_amended (e1 e2 e3 : ModEnv)
    (h1 : e1.contentVerdict.1 = false) (h2 : e2.contentVerdict.1 = false)
    (h3 : e3.contentVerdict.1 = false) (hd : e3.deleteOk = true)
    (hb : e3.banOk = true) (hs : e3.sendOk = true) :
    (moderate_message (moderate_message (moderate_message 0 e1).count e2).count e3).banInvoked
        = true ∧
    (moderate_message (moderate_message (moderate_message 0 e1).count e2).count e3).count = 0 := by
  have hc1 : (moderate_message 0 e1).count = 1 := flagged_count_small 0 e1 h1 (by omega)
  have hc2 : (moderate_message (moderate_message 0 e1).count e2).count = 2 := by
    rw [hc1]
    exact flagged_count_small 1 e2 h2 (by omega)
  rw [hc2]
  obtain ⟨⟨cs, cr⟩, uv, dOk, bOk, sOk, pOk, grp, d2, s2, p2⟩ := e3
  dsimp only at h3 hd hb hs
  subst h3; subst hd; subst hb; subst hs
  simp [moderate_message]

/-- Witness for C1 as amended, at concrete all-succeeding transports. -/
theorem C1_witness :
    (moderate_message
        (moderate_message
            (moderate_message 0
              ⟨(false, "scam"), (true, ""), true, true, true, true, true, true, true, true⟩).count
          ⟨(false, "scam"), (true, ""), true, true, true, true, true, true, true, true⟩).count
      ⟨(false, "scam"), (true, ""), true, true, true, true, true, true, true, true⟩).banInvoked
        = true ∧
    (moderate_message
        (moderate_message
            (moderate_message 0
              ⟨(false, "scam"), (true, ""), true, true, true, true, true, true, true, true⟩).count
          ⟨(false, "scam"), (true, ""), true, true, true, true, true, true, true, true⟩).count
      ⟨(false, "scam"), (true, ""), true, true, true, true, true, true, true, true⟩).count = 0 :=
  C1_three_strikes_amended _ _ _ rfl rfl rfl rfl rfl rfl

/-- Claim C3, counterexample: a third-strike event where the ban call
succeeds but the ban-notice send fails.  The count is not reset: the
reset (line 583) is skipped by the inner except when `send_message`
raises, so "regardless of whether the notification step succeeds" fails
on the code. -/
theorem C3_counterexample :
    (moderate_message 2
        ⟨(false, "scam"), (true, ""), true, true, false, false, true, true, true, true⟩).banSucceeded
        = true ∧
    (moderate_message 2
        ⟨(false, "scam"), (true, ""), true, true, false, false, true, true, true, true⟩).count
        = 3 := by
  decide

/-- Claim C3 as amended: on a third strike, whenever the ban call and
the ban-notice send both succeed, the count resets to 0 — regardless of
the pin and scheduled-unpin outcomes and of the chat type, whose
failures are caught locally before the reset. -/
theorem C3_reset_amended (c : Nat) (env : ModEnv)
    (hu : env.contentVerdict.1 = false) (hd : env.deleteOk = true)
    (hc : 3 ≤ c + 1) (hb : env.banOk = true) (hs : env.sendOk = true) :
    (moderate_message c env).count = 0 := by
  obtain ⟨⟨cs, cr⟩, uv, dOk, bOk, sOk, pOk, grp, d2, s2, p2⟩ := env
  dsimp only at hu hd hb hs
  subst hu; subst hd; subst hb; subst hs
  simp [moderate_message, hc]

/-- Witness for C3 as amended at a concrete third strike. -/
theorem C3_witness :
    (moderate_message 2
        ⟨(false, "scam"), (true, ""), true, true, true, false, true, true, true, true⟩).count
      = 0 :=
  C3_reset_amended 2 _ rfl rfl (by omega) rfl rfl

/-- Claim C4, counterexample: a safe content verdict together with an
unsafe username verdict still deletes the message (the DeleteUsername
path, line 637), refuting "the message content is not deleted". -/
theorem C4_counterexample :
    (⟨(true, ""), (false, "bad name"), true, true, true, true, true, true, true, true⟩
        : ModEnv).contentVerdict.1 = true ∧
    (moderate_message 0
        ⟨(true, ""), (false, "bad name"), true, true, true, true, true, true, true, true⟩).messageDeleted
      = true := by
  decide

/-- Claim C4 as amended: a safe content verdict never mutates the
offense count, and the message is deleted only when the username verdict
is unsafe (the DeleteUsername path). -/
theorem C4_safe_frame_amended (c : Nat) (env : ModEnv)
    (hu : env.contentVerdict.1 = true) :
    (moderate_message c env).count = c ∧
    ((moderate_message c env).messageDeleted = true → env.usernameVerdict.1 = false) := by
  obtain ⟨⟨cs, cr⟩, ⟨us, ur⟩, dOk, bOk, sOk, pOk, grp, d2, s2, p2⟩ := env
  dsimp only at hu
  subst hu
  cases us <;> cases d2 <;> cases s2 <;>
    simp [moderate_message, username_check]

/-- Witness for C4 as amended: a safe message from a user with a safe
username leaves everything unchanged. -/
theorem C4_witness :
    (moderate_message 1
        ⟨(true, ""), (true, ""), true, true, true, true, true, true, true, true⟩).count = 1 :=
  (C4_safe_frame_amended 1 _ rfl).1

/-- Claim C10: if the content-delete call fails on an unsafe verdict,
the offense count still ends up incremented (the increment precedes the
delete attempt and is not rolled back), and neither a warning notice nor
a ban notice is sent, nor is the ban capability invoked — on both the
text path and the photo path. -/
theorem C10_delete_failure (c : Nat) (env : ModEnv) (penv : PhotoEnv)
    (hu : env.contentVerdict.1 = false) (hd : env.deleteOk = false)
    (hpu : penv.verdict.1 = false) (hpd : penv.deleteOk = false) :
    ((moderate_message c env).count = c + 1 ∧
      (moderate_message c env).warnNoticeSent = false ∧
      (moderate_message c env).banNoticeSent = false ∧
      (moderate_message c env).banInvoked = false) ∧
    ((handle_photo_moderation c penv).count = c + 1 ∧
      (handle_photo_moderation c penv).warnNoticeSent = false ∧
      (handle_photo_moderation c penv).banNoticeSent = false ∧
      (handle_photo_moderation c penv).banInvoked = false) := by
  constructor
  · obtain ⟨⟨cs, cr⟩, ⟨us, ur⟩, dOk, bOk, sOk, pOk, grp, d2, s2, p2⟩ := env
    dsimp only at hu hd
    subst hu; subst hd
    cases us <;> cases d2 <;> cases s2 <;>
      simp [moderate_message, username_check]
  · obtain ⟨⟨vs, vr⟩, dOk, bOk, sOk, pOk, grp⟩ := penv
    dsimp only at hpu hpd
    subst hpu; subst hpd
    simp [handle_photo_moderation]

/-- Witness for C10 at a concrete failing delete on both paths. -/
theorem C10_witness :
    (moderate_message 1
        ⟨(false, "scam"), (true, ""), false, true, true, true, true, true, true, true⟩).count = 2 ∧
    (handle_photo_moderation 1 ⟨(false, "scam"), false, true, true, true, true⟩).count = 2 :=
  ⟨(C10_delete_failure 1
      ⟨(false, "scam"), (true, ""), false, true, true, true, true, true, true, true⟩
      ⟨(false, "scam"), false, true, true, true, true⟩ rfl rfl rfl rfl).1.1,
   (C10_delete_failure 1
      ⟨(false, "scam"), (true, ""), false, true, true, true, true, true, true, true⟩
      ⟨(false, "scam"), false, true, true, true, true⟩ rfl rfl rfl rfl).2.1⟩

/-- Claim C6, counterexample: a description containing "gift card" that
also trips the tech-support compound pattern ("Warning" plus "Call") is
flagged with the tech-support-scam reason, which does not name
"gift card" — the compound check (line 408) runs before the keyword scan
(line 413). -/
theorem C6_counterexample :
    pyContains (pyLower "Warning! Call now to claim your gift card") "gift card" = true ∧
    process_image_description "Warning! Call now to claim your gift card" (true, "")
        = ⟨(false, "Image appears to be a tech support scam"), false⟩ ∧
    pyContains "Image appears to be a tech support scam" "gift card" = false := by
  decide

/-- Claim C6 as amended: every image description containing the
configured scam keyword "gift card" (any case) is flagged unsafe without
consulting the Classifier Adapter; the reason names "gift card" provided
the description does not also match both halves of the
tech-support-scam compound pattern, in which case the reason is the
tech-support-scam phrase instead. -/
theorem C6_gift_card_amended (desc : String) (adapter : Bool × String)
    (h : pyContains (pyLower desc) "gift card" = true) :
    (process_image_description desc adapter).adapterInvoked = false ∧
    (process_image_description desc adapter).verdict.1 = false ∧
    ((virus_alert_pattern desc && tech_support_pattern desc) = false →
      (process_image_description desc adapter).verdict.2
        = "Image appears to be a scam offering \x27gift card\x27") := by
  have hne : desc ≠ "" := by
    intro he
    subst he
    exact absurd h (by decide)
  unfold process_image_description
  rw [if_neg hne]
  cases hvt : (virus_alert_pattern desc && tech_support_pattern desc) with
  | true =>
    exact ⟨rfl, rfl, fun hfalse => Bool.noConfusion hfalse⟩
  | false =>
    have hfind :
        defaultScamKeywords.find? (fun k => pyContains (pyLower desc) k) = some "gift card" := by
      simp only [defaultScamKeywords]
      rw [List.find?_cons_of_pos _ h]
    simp [hfind]

/-- Witness for C6 as amended, at a concrete gift-card description that
does not trip the compound pattern. -/
theorem C6_witness :
    (process_image_description "a lovely Gift Card photo" (true, "")).adapterInvoked = false ∧
    (process_image_description "a lovely Gift Card photo" (true, "")).verdict
        = (false, "Image appears to be a scam offering \x27gift card\x27") := by
  have h := C6_gift_card_amended "a lovely Gift Card photo" (true, "") (by decide)
  exact ⟨h.1, Prod.ext h.2.1 (h.2.2 (by decide))⟩

/-- Claim C8, counterexample: when the request itself raises (a
transport error), the generator returns the single generic fallback for
every action kind — for the "ban" action the output is not the fixed
ban template and does not include the reason "xyzzy" at all. -/
theorem C8_counterexample :
    generate_moderation_message "ban" "alice" "xyzzy" 3 InferResult.reqError
        = "🚨 MESSAGE DELETED 🚨\n\nMessage from @alice was removed for violating community rules." ∧
    pyContains (generate_moderation_message "ban" "alice" "xyzzy" 3 InferResult.reqError) "xyzzy"
        = false := by
  decide

/-- Claim C8 as amended: on a non-success status the output exactly
matches the fixed per-action fallback template — including the username
and the reason verbatim for the delete_content and ban actions, and the
reason but deliberately not the username for delete_username — while on
a raised request the output is the single generic fallback, which names
the username but not the reason. -/
theorem C8_fallback_amended (u r : String) (cnt s : Nat) (body : Option String)
    (hs : s ≠ 200) :
    generate_moderation_message "delete_content" u r cnt (.ok s body)
        = deletionHeader ++ "Hey @" ++ u ++ ", your message was removed. Reason: " ++ r
            ++ ". Strike " ++ toString cnt ++ "/3." ∧
    generate_moderation_message "delete_username" u r cnt (.ok s body)
        = deletionHeader ++ "A message was removed due to inappropriate username. Reason: " ++ r ∧
    generate_moderation_message "ban" u r cnt (.ok s body)
        = banHeader ++ "User @" ++ u ++ " has been banned after multiple violations. Final violation: " ++ r ∧
    generate_moderation_message "delete_content" u r cnt .reqError = genericFallback u ∧
    generate_moderation_message "delete_username" u r cnt .reqError = genericFallback u ∧
    generate_moderation_message "ban" u r cnt .reqError = genericFallback u := by
  refine ⟨?_, ?_, ?_, rfl, rfl, rfl⟩ <;>
    simp [generate_moderation_message, hs]

/-- Witness for C8 as amended at status 500. -/
theorem C8_witness :
    generate_moderation_message "ban" "alice" "xyzzy" 3 (.ok 500 none)
        = banHeader ++ "User @alice has been banned after multiple violations. Final violation: xyzzy" :=
  (C8_fallback_amended "alice" "xyzzy" 3 500 none (by decide)).2.2.1

/-- Claim C9, counterexample: when the inference response text itself
contains the username, the rendered delete_username notice contains it
verbatim — the renderer only prepends a header and never strips the
username from the model's text. -/
theorem C9_counterexample :
    generate_moderation_message "delete_username" "bob" "inappropriate" 0
        (.ok 200 (some "bob is a problem"))
      = "🚨 MESSAGE DELETED 🚨\n\nbob is a problem" ∧
    pyContains
        (generate_moderation_message "delete_username" "bob" "inappropriate" 0
          (.ok 200 (some "bob is a problem")))
        "bob" = true := by
  decide

/-- Claim C9 as amended: the delete_username renderer never inserts the
username itself — for every inference response text the output is
exactly that text, with at most the fixed deletion header prepended (the
`@`-mention rewrite is skipped for this action) — but it echoes the
username whenever the response text already contains it. -/
theorem C9_username_render_amended (u r t : String) (cnt : Nat) :
    generate_moderation_message "delete_username" u r cnt (.ok 200 (some t))
      = if pyStartsWith t "🚨" || pyStartsWith t "🚫" then t else deletionHeader ++ t := by
  cases h1 : pyStartsWith t "🚨" <;> cases h2 : pyStartsWith t "🚫" <;>
    simp [generate_moderation_message, moderation_postprocess, h1, h2]

end ScamDefender
